import Mathlib

/-!
Shallow embedding of the intonation-analysis core of the repository
(`bufferToFloat32`, `amplificarAudio` and `analisarEntonacao` in the
server source). JavaScript numbers are modelled as exact rationals;
buffers are lists of byte values; the external YIN pitch detector from
the `pitchfinder` package is an arbitrary function parameter
`detect : List ℚ → Option ℚ` (it returns `null`/a frequency per window;
the JS truthiness test `pitch &&` is subsumed by the band test, since
`0` never lies in an acceptance band).
-/

namespace Entonacao

/-- The result object returned by `analisarEntonacao`.  The five numeric
fields are absent (`none`) on the insufficient-data path and present
(`some _`) on the success path. -/
structure AnalysisResult where
  score : ℚ
  feedback : String
  range : Option ℚ
  sd : Option ℚ
  slope : Option ℚ
  pitchCount : Option ℕ
  meanPitch : Option ℚ
deriving DecidableEq

/-- Signed 16-bit value assembled from two bytes, little endian:
`buffer.readInt16LE` reads `lo + 256*hi` and reinterprets values
`≥ 32768` as negative (two's complement). -/
def int16OfBytes (lo hi : ℕ) : ℤ :=
  if lo + 256 * hi < 32768 then (lo + 256 * hi : ℤ) else (lo + 256 * hi : ℤ) - 65536

/-- Model of `bufferToFloat32`: `for (let i = 0; i < buffer.length; i += 2)` read a
16-bit little-endian sample at `i` and push `sample / 32768`.  Consuming
the byte list two at a time is the same traversal; a read at the final
byte of an odd-length buffer would run one byte past the end (Node
throws a range error), modelled as `none`. -/
def bufferToFloat32 : List ℕ → Option (List ℚ)
  | [] => some []
  | [_] => none
  | lo :: hi :: rest =>
    match bufferToFloat32 rest with
    | none => none
    | some out => some (((int16OfBytes lo hi : ℚ) / 32768) :: out)

/-- Model of `amplificarAudio(floatSamples, gain)`: multiply each sample by the
gain and hard-clip to `[-1, 1]` via `Math.max(-1, Math.min(1, _))`. -/
def amplificarAudio (floatSamples : List ℚ) (gain : ℚ) : List ℚ :=
  floatSamples.map fun s => max (-1) (min 1 (s * gain))

/-- Peak amplitude `Math.max(...floatSamples.map(Math.abs))`.  For an empty list the JS
spread gives `-Infinity`; folding from `0` keeps the comparison
`maxAmplitude < 0.1` (and hence the branch taken) identical, since all
entries of the fold are absolute values `≥ 0`. -/
def maxAmplitude (floatSamples : List ℚ) : ℚ :=
  (floatSamples.map fun s => |s|).foldr max 0

/-- The normalisation step at the top of `analisarEntonacao`: if the
peak absolute amplitude is below `0.1`, amplify with gain `3.0`,
otherwise keep the samples unchanged. -/
def normalizar (floatSamples : List ℚ) : List ℚ :=
  if maxAmplitude floatSamples < 1 / 10 then amplificarAudio floatSamples 3
  else floatSamples

/-- One step list of window start indices:
`for (let i = 0; i < samples.length - windowSize; i += hop)` with
`windowSize = 512`, `hop = 256`.  The JS comparison `i < length - 512`
over numbers is `i + 512 < n` over naturals.  The fuel argument only
bounds the recursion; `windowStarts` supplies enough of it. -/
def scanStarts : ℕ → ℕ → ℕ → List ℕ
  | 0, _, _ => []
  | fuel + 1, i, n => if i + 512 < n then i :: scanStarts fuel (i + 256) n else []

/-- All window start indices traversed by one scan phase over a
waveform of length `n`. -/
def windowStarts (n : ℕ) : List ℕ :=
  scanStarts n 0 n

/-- One scan phase: for each window start, slice 512 samples, run the
detector, and keep the estimate when it lies strictly inside the
acceptance band `(lo, hi)`. -/
def varredura (detect : List ℚ → Option ℚ) (samples : List ℚ) (lo hi : ℚ) : List ℚ :=
  (windowStarts samples.length).filterMap fun i =>
    (detect ((samples.drop i).take 512)).bind fun pitch =>
      if lo < pitch ∧ pitch < hi then some pitch else none

/-- The combined pitch contour of `analisarEntonacao`: normalise, scan
with the strict band `(40, 600)`; if that yields fewer than 5 accepted
estimates, scan again with the relaxed band `(30, 800)` and append
(no deduplication). -/
def contorno (detect : List ℚ → Option ℚ) (floatSamples : List ℚ) : List ℚ :=
  let samples := normalizar floatSamples
  let fase1 := varredura detect samples 40 600
  if fase1.length < 5 then fase1 ++ varredura detect samples 30 800 else fase1

/-- Model of `Math.min(...pitches)`; only reached with a nonempty contour
(guarded by the `length ≥ 5` check), the `[]` default is unreachable. -/
def minimo : List ℚ → ℚ
  | [] => 0
  | x :: xs => xs.foldr min x

/-- Model of `Math.max(...pitches)`; same unreachable-default remark as `minimo`. -/
def maximo : List ℚ → ℚ
  | [] => 0
  | x :: xs => xs.foldr max x

/-- Feature `range = max - min`. -/
def faixa (pitches : List ℚ) : ℚ :=
  maximo pitches - minimo pitches

/-- Feature `mean = pitches.reduce((a, b) => a + b, 0) / pitches.length`. -/
def media (pitches : List ℚ) : ℚ :=
  pitches.sum / pitches.length

/-- Feature `variance = pitches.reduce((a, b) => a + (b - mean) ** 2, 0) / pitches.length`. -/
def variancia (pitches : List ℚ) : ℚ :=
  (pitches.map fun b => (b - media pitches) ^ 2).sum / pitches.length

/-- Feature `slope = (pitches[pitches.length - 1] - pitches[0]) / pitches.length`. -/
def inclinacao (pitches : List ℚ) : ℚ :=
  (pitches.getLastD 0 - pitches.headI) / pitches.length

/-- Range contribution: `range < 20 → 10`, `range < 60 → 30`, else `40`. -/
def pontuacaoFaixa (range : ℚ) : ℚ :=
  if range < 20 then 10 else if range < 60 then 30 else 40

/-- Standard-deviation contribution, phrased on the variance: with
`sd = Math.sqrt(variance)` and `variance ≥ 0`, the source's `sd < 10`
is `variance < 100` and `sd < 40` is `variance < 1600` (monotonicity of
the square root; proved below as `sqrt_lt_threshold_iff`).
So: `sd < 10 → 10`, `sd < 40 → 30`, else `20`. -/
def pontuacaoEstabilidade (variance : ℚ) : ℚ :=
  if variance < 100 then 10 else if variance < 1600 then 30 else 20

/-- Slope contribution: `slope < -0.1 → 30`, `slope < 0.05 → 20`, else `10`. -/
def pontuacaoDeclinacao (slope : ℚ) : ℚ :=
  if slope < -(1 / 10) then 30 else if slope < 1 / 20 then 20 else 10

/-- The synthesized score of `analisarEntonacao`: the three `score +=`
contributions summed, then `Math.min(100, Math.max(0, score))`. -/
def pontuacao (pitches : List ℚ) : ℚ :=
  min 100 (max 0
    (pontuacaoFaixa (faixa pitches) + pontuacaoEstabilidade (variancia pitches) +
      pontuacaoDeclinacao (inclinacao pitches)))

/-- Range commentary sentence (first `feedback +=` block). -/
def comentarioFaixa (range : ℚ) : String :=
  if range < 20 then
    "Sua entonação está muito reta (monótona). Tente variar mais a altura da voz. "
  else if range < 60 then "Boa variação de entonação. "
  else "✨ Ótima variação tonal! "

/-- Stability commentary sentence (second `feedback +=` block), phrased
on the variance: the source's `sd > 40` is `variance > 1600` and
`sd < 10` is `variance < 100` (monotonicity of the square root). -/
def comentarioEstabilidade (variance : ℚ) : String :=
  if 1600 < variance then "Sua voz está tremida ou instável. "
  else if variance < 100 then "Voz robótica demais. Tente ser mais expressivo. "
  else "Ótima estabilidade na voz. "

/-- Declination commentary sentence (third `feedback +=` block):
`slope > 0.1` rising, `slope < -0.1` falling, otherwise neutral. -/
def comentarioDeclinacao (slope : ℚ) : String :=
  if 1 / 10 < slope then "Você terminou a frase subindo (soa como pergunta). "
  else if slope < -(1 / 10) then "Você terminou a frase caindo (natural para afirmações)."
  else "Finalização neutra."

/-- JavaScript `String.prototype.trim`: remove whitespace from both ends
of the string (the feedback only ever carries ordinary trailing spaces). -/
def aparar (s : String) : String :=
  ⟨((s.data.dropWhile Char.isWhitespace).reverse.dropWhile Char.isWhitespace).reverse⟩

/-- The fixed guidance message of the insufficient-data path. -/
def mensagemInsuficiente : String :=
  "⚠️ Não foi possível analisar a entonação. Verifique:\n• Fale mais alto\n• Grave por mais tempo (mínimo 3-5 segundos)\n• Verifique se o microfone está funcionando"

/-- Rounding `parseFloat(x.toFixed(d))`: round to `d` decimal places, ties away
from zero (`toFixed` renders the sign separately and rounds the
magnitude half-up). -/
def roundFixed (d : ℕ) (q : ℚ) : ℚ :=
  let p : ℚ := (10 : ℚ) ^ d
  if q < 0 then -(⌊-q * p + 1 / 2⌋ : ℚ) / p else (⌊q * p + 1 / 2⌋ : ℚ) / p

/-- Rounding `parseFloat(Math.sqrt(variance).toFixed(2))` in exact arithmetic:
round `√variance` half-up to two decimals, i.e.
`round(√(10000·variance)) / 100`, computed with the integer square
root (`⌊2·√m⌋ = Nat.sqrt (4*m)` and `⌊(x + b) / (2b)⌋ = (⌊x⌋ + b) / (2b)`). -/
def sdArredondado (variance : ℚ) : ℚ :=
  let w : ℚ := 10000 * variance
  ((Nat.sqrt (4 * w.num.toNat * w.den) + w.den) / (2 * w.den) : ℕ) / 100

/-- Top-level `analisarEntonacao` assembled from the pieces above: normalise,
extract the two-phase contour, and either return the insufficient-data
result (fewer than 5 accepted estimates) or compute the statistics, the
bucketed score, and the concatenated-and-trimmed feedback. -/
def analisarEntonacao (detect : List ℚ → Option ℚ) (floatSamples : List ℚ) : AnalysisResult :=
  let pitches := contorno detect floatSamples
  if pitches.length < 5 then
    ⟨0, mensagemInsuficiente, none, none, none, none, none⟩
  else
    ⟨pontuacao pitches,
      aparar
        (comentarioFaixa (faixa pitches) ++ comentarioEstabilidade (variancia pitches) ++
          comentarioDeclinacao (inclinacao pitches)),
      some (roundFixed 2 (faixa pitches)),
      some (sdArredondado (variancia pitches)),
      some (roundFixed 4 (inclinacao pitches)),
      some pitches.length,
      some (roundFixed 2 (media pitches))⟩


/-- Concrete stand-in for the external YIN detector, used to evaluate
the pipeline on concrete inputs: it reports 100 Hz for every window. -/
def detectorTeste : List ℚ → Option ℚ := fun _ => some 100

/-- Concrete waveform of 1025 zero samples: long enough for three
window starts (0, 256, 512). -/
def amostrasTeste : List ℚ := List.replicate 1025 0

/-! Helper lemmas. -/

/-- Monotonicity bridge justifying the variance-based phrasing of the
`sd` comparisons: for a positive threshold `t`, `√v < t ↔ v < t²`. -/
theorem sqrt_lt_threshold_iff (v t : ℚ) (ht : 0 < t) :
    Real.sqrt (v : ℝ) < (t : ℝ) ↔ v < t ^ 2 := by
  rw [Real.sqrt_lt' (by exact_mod_cast ht)]
  exact_mod_cast Iff.rfl

/-- Monotonicity bridge, other direction: for a positive threshold `t`,
`t ≤ √v ↔ t² ≤ v`. -/
theorem le_sqrt_threshold_iff (v t : ℚ) (ht : 0 < t) :
    (t : ℝ) ≤ Real.sqrt (v : ℝ) ↔ t ^ 2 ≤ v := by
  rw [Real.le_sqrt' (by exact_mod_cast ht)]
  exact_mod_cast Iff.rfl

/-- The variance is a mean of squares, hence nonnegative. -/
theorem variancia_nonneg (pitches : List ℚ) : 0 ≤ variancia pitches := by
  unfold variancia
  apply div_nonneg
  · apply List.sum_nonneg
    intro x hx
    simp only [List.mem_map] at hx
    obtain ⟨b, -, rfl⟩ := hx
    positivity
  · positivity

/-- Unfolding lemma for the scan loop: as long as the fuel dominates the
number of remaining iterations, the loop from start index `i` visits
exactly the indices `i, i + 256, i + 512, …` that satisfy the loop
guard `start + 512 < n`. -/
theorem scanStarts_eq (fuel : ℕ) :
    ∀ i n : ℕ, (n - (i + 512) + 255) / 256 ≤ fuel →
      scanStarts fuel i n =
        (List.range ((n - (i + 512) + 255) / 256)).map fun k => i + 256 * k := by
  induction fuel with
  | zero =>
    intro i n h
    have h0 : (n - (i + 512) + 255) / 256 = 0 := Nat.le_zero.1 h
    rw [h0]
    rfl
  | succ fuel ih =>
    intro i n h
    rw [scanStarts]
    by_cases hc : i + 512 < n
    · rw [if_pos hc]
      have hcnt : (n - (i + 512) + 255) / 256 = (n - (i + 256 + 512) + 255) / 256 + 1 := by
        omega
      have hle : (n - (i + 256 + 512) + 255) / 256 ≤ fuel := by omega
      rw [ih (i + 256) n hle, hcnt, List.range_succ_eq_map]
      simp only [List.map_cons, List.map_map, Function.comp_def, Nat.succ_eq_add_one,
        Nat.mul_zero, Nat.add_zero]
      refine congrArg (List.cons i) (List.map_congr_left fun k _ => ?_)
      omega
    · rw [if_neg hc]
      have h0 : (n - (i + 512) + 255) / 256 = 0 := by omega
      rw [h0]
      rfl

/-- Characterisation of the traversed window starts used below. -/
theorem windowStarts_eq (n : ℕ) :
    windowStarts n = (List.range ((n - 512 + 255) / 256)).map fun k => 256 * k := by
  rw [windowStarts, scanStarts_eq n 0 n (by omega)]
  simp only [Nat.zero_add]

/-- Every estimate a scan phase keeps lies strictly inside the phase's
acceptance band. -/
theorem varredura_mem_band (detect : List ℚ → Option ℚ) (samples : List ℚ) (lo hi p : ℚ)
    (hp : p ∈ varredura detect samples lo hi) : lo < p ∧ p < hi := by
  simp only [varredura, List.mem_filterMap] at hp
  obtain ⟨i, -, hf⟩ := hp
  cases hdet : detect ((samples.drop i).take 512) with
  | none => rw [hdet] at hf; exact absurd hf (by simp)
  | some q =>
    rw [hdet, Option.some_bind] at hf
    by_cases hband : lo < q ∧ q < hi
    · rw [if_pos hband] at hf
      obtain rfl : q = p := Option.some.inj hf
      exact hband
    · rw [if_neg hband] at hf
      exact absurd hf (by simp)

/-! Claim C2 (corrected). -/

/-- C2 (amended): each scan phase traverses the window start indices
`0, 256, 512, …` while `start + 512 < length` (strict, matching the JS
loop guard `i < samples.length - windowSize`), so the number of windows
scanned per phase is `(length - 512 + 255) / 256` in saturating natural
arithmetic — that is `⌈(length - 512) / 256⌉` when `length > 512` and
`0` when `length ≤ 512`. -/
theorem claim_C2 (n : ℕ) :
    windowStarts n = (List.range ((n - 512 + 255) / 256)).map (fun k => 256 * k) ∧
      (windowStarts n).length = (n - 512 + 255) / 256 := by
  refine ⟨windowStarts_eq n, ?_⟩
  rw [windowStarts_eq n]
  simp

/-- C2 counterexample: a waveform of exactly 512 samples scans zero
windows, while the claimed formula `floor((length - 512) / 256) + 1`
gives 1 — the loop guard is strict, `start + 512 < length`, not
`start + 512 ≤ length`. -/
theorem claim_C2_counterexample :
    (windowStarts 512).length = 0 ∧ (512 - 512) / 256 + 1 = 1 := by
  exact ⟨by decide, by norm_num⟩

/-! Claim C6. -/

/-- C6: the normaliser preserves length; when the peak absolute
amplitude is below `0.1` every output sample is
`clamp(input * 3, -1, 1)` and has absolute value at most 1; when the
peak is at least `0.1` the waveform is returned unchanged. -/
theorem claim_C6 (l : List ℚ) :
    (normalizar l).length = l.length
    ∧ (maxAmplitude l < 1 / 10 →
        normalizar l = l.map (fun s => max (-1) (min 1 (s * 3)))
        ∧ ∀ y ∈ normalizar l, |y| ≤ 1)
    ∧ (1 / 10 ≤ maxAmplitude l → normalizar l = l) := by
  refine ⟨?_, fun h => ⟨?_, ?_⟩, fun h => ?_⟩
  · rw [normalizar]
    split
    · simp [amplificarAudio]
    · rfl
  · rw [normalizar, if_pos h]
    rfl
  · intro y hy
    rw [normalizar, if_pos h] at hy
    simp only [amplificarAudio, List.mem_map] at hy
    obtain ⟨x, -, rfl⟩ := hy
    rw [abs_le]
    exact ⟨le_max_left _ _, max_le (by norm_num) (min_le_left _ _)⟩
  · rw [normalizar, if_neg (not_lt.2 h)]

/-- Witness for C6 at the one-sample waveform `[1/100]`. -/
theorem claim_C6_witness :
    maxAmplitude [(1 : ℚ) / 100] < 1 / 10
    ∧ normalizar [(1 : ℚ) / 100] = [(1 : ℚ) / 100].map (fun s => max (-1) (min 1 (s * 3))) := by
  have h : maxAmplitude [(1 : ℚ) / 100] < 1 / 10 := by
    have : maxAmplitude [(1 : ℚ) / 100] = max |(1 : ℚ) / 100| 0 := rfl
    rw [this, abs_of_nonneg (by norm_num), max_eq_left (by norm_num)]
    norm_num
  exact ⟨h, ((claim_C6 [(1 : ℚ) / 100]).2.1 h).1⟩

/-! Claim C7. -/

/-- C7: every element of a strict-band scan lies in `[40, 600]`, every
element of a relaxed-band scan lies in `[30, 800]`, and hence every
element of the combined contour lies in `[30, 800]`. -/
theorem claim_C7 (detect : List ℚ → Option ℚ) (samples : List ℚ) :
    (∀ p ∈ varredura detect (normalizar samples) 40 600, 40 ≤ p ∧ p ≤ 600)
    ∧ (∀ p ∈ varredura detect (normalizar samples) 30 800, 30 ≤ p ∧ p ≤ 800)
    ∧ (∀ p ∈ contorno detect samples, 30 ≤ p ∧ p ≤ 800) := by
  refine ⟨fun p hp => ?_, fun p hp => ?_, fun p hp => ?_⟩
  · obtain ⟨h1, h2⟩ := varredura_mem_band detect (normalizar samples) 40 600 p hp
    exact ⟨le_of_lt h1, le_of_lt h2⟩
  · obtain ⟨h1, h2⟩ := varredura_mem_band detect (normalizar samples) 30 800 p hp
    exact ⟨le_of_lt h1, le_of_lt h2⟩
  · simp only [contorno] at hp
    split at hp
    · rcases List.mem_append.1 hp with h | h
      · obtain ⟨h1, h2⟩ := varredura_mem_band detect (normalizar samples) 40 600 p h
        exact ⟨by linarith, by linarith⟩
      · obtain ⟨h1, h2⟩ := varredura_mem_band detect (normalizar samples) 30 800 p h
        exact ⟨le_of_lt h1, le_of_lt h2⟩
    · obtain ⟨h1, h2⟩ := varredura_mem_band detect (normalizar samples) 40 600 p hp
      exact ⟨by linarith, by linarith⟩

/-- Folding `max` over a list of zeros from zero gives zero. -/
theorem foldr_max_zero (n : ℕ) : (List.replicate n (0 : ℚ)).foldr max 0 = 0 := by
  induction n with
  | zero => rfl
  | succ n ih => rw [List.replicate_succ, List.foldr_cons, ih, max_self]

/-- Peak amplitude of the all-zero test waveform. -/
theorem maxAmplitude_amostrasTeste : maxAmplitude amostrasTeste = 0 := by
  rw [amostrasTeste, maxAmplitude, List.map_replicate, abs_zero]
  exact foldr_max_zero 1025

/-- The all-zero test waveform is (trivially) amplified to itself. -/
theorem normalizar_amostrasTeste : normalizar amostrasTeste = amostrasTeste := by
  rw [normalizar, if_pos (by rw [maxAmplitude_amostrasTeste]; norm_num)]
  rw [amostrasTeste, amplificarAudio, List.map_replicate]
  have hclamp : max (-1 : ℚ) (min 1 (0 * 3)) = 0 := by
    rw [zero_mul, min_eq_right (by norm_num : (0 : ℚ) ≤ 1),
      max_eq_right (by norm_num : (-1 : ℚ) ≤ 0)]
  rw [hclamp]

/-- The three window starts of a 1025-sample waveform. -/
theorem windowStarts_1025 : windowStarts 1025 = [0, 256, 512] := by decide

/-- Scanning the test waveform with the constant test detector accepts
100 Hz at each of the three windows, for any band containing 100. -/
theorem varredura_amostrasTeste (lo hi : ℚ) (hlo : lo < 100) (hhi : (100 : ℚ) < hi) :
    varredura detectorTeste amostrasTeste lo hi = [100, 100, 100] := by
  have hlen : amostrasTeste.length = 1025 := by
    rw [amostrasTeste]
    exact List.length_replicate 1025 0
  have hf : ∀ i : ℕ,
      ((detectorTeste ((amostrasTeste.drop i).take 512)).bind fun pitch =>
        if lo < pitch ∧ pitch < hi then some pitch else none) = some 100 := by
    intro i
    rw [show detectorTeste ((amostrasTeste.drop i).take 512) = some 100 from rfl,
      Option.some_bind, if_pos ⟨hlo, hhi⟩]
  rw [varredura, hlen, windowStarts_1025]
  simp only [List.filterMap_cons, List.filterMap_nil, hf 0, hf 256, hf 512]

/-- The combined contour of the test input: phase 1 yields three
estimates, fewer than five, so phase 2 runs and appends three more. -/
theorem contorno_amostrasTeste :
    contorno detectorTeste amostrasTeste = [100, 100, 100, 100, 100, 100] := by
  simp only [contorno, normalizar_amostrasTeste]
  rw [varredura_amostrasTeste 40 600 (by norm_num) (by norm_num),
    varredura_amostrasTeste 30 800 (by norm_num) (by norm_num)]
  simp

/-- The contour of the empty waveform under a never-firing detector. -/
theorem contorno_vazio : contorno (fun _ => none) ([] : List ℚ) = [] := by
  have hnorm : normalizar ([] : List ℚ) = [] := by
    rw [normalizar]
    split <;> rfl
  simp only [contorno, hnorm]
  rfl

/-- Witness for C7: 100 Hz is a member of a concretely computed contour
and lies in the outer band. -/
theorem claim_C7_witness :
    (100 : ℚ) ∈ contorno detectorTeste amostrasTeste
    ∧ 30 ≤ (100 : ℚ) ∧ (100 : ℚ) ≤ 800 := by
  have hm : (100 : ℚ) ∈ contorno detectorTeste amostrasTeste := by
    rw [contorno_amostrasTeste]
    simp
  exact ⟨hm, (claim_C7 detectorTeste amostrasTeste).2.2 100 hm⟩

/-! Claim C3. -/

/-- C3: when the combined contour has fewer than five points, the
analysis returns score 0, the fixed non-empty multi-line guidance
message, and no numeric fields; the function is total, so no exception
is possible. -/
theorem claim_C3 (detect : List ℚ → Option ℚ) (samples : List ℚ)
    (h : (contorno detect samples).length < 5) :
    analisarEntonacao detect samples =
      ⟨0, mensagemInsuficiente, none, none, none, none, none⟩
    ∧ mensagemInsuficiente ≠ ""
    ∧ '\n' ∈ mensagemInsuficiente.toList := by
  refine ⟨?_, by decide, by decide⟩
  simp only [analisarEntonacao]
  rw [if_pos h]

/-- Witness for C3 at the empty waveform. -/
theorem claim_C3_witness :
    (contorno (fun _ => none) ([] : List ℚ)).length < 5
    ∧ analisarEntonacao (fun _ => none) ([] : List ℚ) =
        ⟨0, mensagemInsuficiente, none, none, none, none, none⟩ := by
  have h : (contorno (fun _ => none) ([] : List ℚ)).length < 5 := by
    rw [contorno_vazio]
    norm_num
  exact ⟨h, (claim_C3 (fun _ => none) [] h).1⟩

/-! Claim C1. -/

/-- C1: for a contour of at least five points, the synthesized score is
the sum of three independent bucketed contributions clamped to
`[0, 100]`: range `< 20 → 10`, `[20, 60) → 30`, `≥ 60 → 40`; standard
deviation (`√variance`) `< 10 → 10`, `[10, 40) → 30`, `≥ 40 → 20`;
slope `< -0.1 → 30`, `[-0.1, 0.05) → 20`, `≥ 0.05 → 10`. -/
theorem claim_C1 (c : List ℚ) (_h5 : 5 ≤ c.length) :
    ∃ r s l : ℚ,
      pontuacao c = min 100 (max 0 (r + s + l))
      ∧ (faixa c < 20 → r = 10)
      ∧ (20 ≤ faixa c → faixa c < 60 → r = 30)
      ∧ (60 ≤ faixa c → r = 40)
      ∧ (Real.sqrt (variancia c) < 10 → s = 10)
      ∧ (10 ≤ Real.sqrt (variancia c) → Real.sqrt (variancia c) < 40 → s = 30)
      ∧ (40 ≤ Real.sqrt (variancia c) → s = 20)
      ∧ (inclinacao c < -(1 / 10) → l = 30)
      ∧ (-(1 / 10) ≤ inclinacao c → inclinacao c < 1 / 20 → l = 20)
      ∧ (1 / 20 ≤ inclinacao c → l = 10) := by
  refine ⟨pontuacaoFaixa (faixa c), pontuacaoEstabilidade (variancia c),
    pontuacaoDeclinacao (inclinacao c), rfl, fun h1 => ?_, fun h1 h2 => ?_, fun h1 => ?_,
    fun h1 => ?_, fun h1 h2 => ?_, fun h1 => ?_, fun h1 => ?_, fun h1 h2 => ?_, fun h1 => ?_⟩
  · rw [pontuacaoFaixa, if_pos h1]
  · rw [pontuacaoFaixa, if_neg (not_lt.2 h1), if_pos h2]
  · rw [pontuacaoFaixa, if_neg (not_lt.2 (by linarith)), if_neg (not_lt.2 h1)]
  · have hv : variancia c < 100 := by
      have hq := (sqrt_lt_threshold_iff (variancia c) 10 (by norm_num)).1 (by exact_mod_cast h1)
      norm_num at hq
      exact hq
    rw [pontuacaoEstabilidade, if_pos hv]
  · have hv1 : (100 : ℚ) ≤ variancia c := by
      have hq := (le_sqrt_threshold_iff (variancia c) 10 (by norm_num)).1 (by exact_mod_cast h1)
      norm_num at hq
      exact hq
    have hv2 : variancia c < 1600 := by
      have hq := (sqrt_lt_threshold_iff (variancia c) 40 (by norm_num)).1 (by exact_mod_cast h2)
      norm_num at hq
      exact hq
    rw [pontuacaoEstabilidade, if_neg (not_lt.2 hv1), if_pos hv2]
  · have hv : (1600 : ℚ) ≤ variancia c := by
      have hq := (le_sqrt_threshold_iff (variancia c) 40 (by norm_num)).1 (by exact_mod_cast h1)
      norm_num at hq
      exact hq
    rw [pontuacaoEstabilidade, if_neg (not_lt.2 (by linarith)), if_neg (not_lt.2 hv)]
  · rw [pontuacaoDeclinacao, if_pos h1]
  · rw [pontuacaoDeclinacao, if_neg (not_lt.2 h1), if_pos h2]
  · rw [pontuacaoDeclinacao, if_neg (not_lt.2 (by linarith)), if_neg (not_lt.2 h1)]

/-- Witness for C1 at a concrete five-point contour. -/
theorem claim_C1_witness :
    5 ≤ ([100, 105, 110, 108, 102] : List ℚ).length
    ∧ ∃ r s l : ℚ,
        pontuacao [100, 105, 110, 108, 102] = min 100 (max 0 (r + s + l)) := by
  refine ⟨by simp, ?_⟩
  obtain ⟨r, s, l, h1, -⟩ := claim_C1 [100, 105, 110, 108, 102] (by simp)
  exact ⟨r, s, l, h1⟩

/-! Claim C8. -/

/-- Bounds of the range contribution. -/
theorem pontuacaoFaixa_bounds (r : ℚ) : 10 ≤ pontuacaoFaixa r ∧ pontuacaoFaixa r ≤ 40 := by
  rw [pontuacaoFaixa]
  split_ifs <;> norm_num

/-- Bounds of the standard-deviation contribution. -/
theorem pontuacaoEstabilidade_bounds (v : ℚ) :
    10 ≤ pontuacaoEstabilidade v ∧ pontuacaoEstabilidade v ≤ 30 := by
  rw [pontuacaoEstabilidade]
  split_ifs <;> norm_num

/-- Bounds of the slope contribution. -/
theorem pontuacaoDeclinacao_bounds (s : ℚ) :
    10 ≤ pontuacaoDeclinacao s ∧ pontuacaoDeclinacao s ≤ 30 := by
  rw [pontuacaoDeclinacao]
  split_ifs <;> norm_num

/-- Every range contribution is a multiple of ten. -/
theorem pontuacaoFaixa_mult10 (r : ℚ) : ∃ k : ℤ, pontuacaoFaixa r = 10 * (k : ℚ) := by
  rw [pontuacaoFaixa]
  split_ifs
  · exact ⟨1, by norm_num⟩
  · exact ⟨3, by norm_num⟩
  · exact ⟨4, by norm_num⟩

/-- Every standard-deviation contribution is a multiple of ten. -/
theorem pontuacaoEstabilidade_mult10 (v : ℚ) :
    ∃ k : ℤ, pontuacaoEstabilidade v = 10 * (k : ℚ) := by
  rw [pontuacaoEstabilidade]
  split_ifs
  · exact ⟨1, by norm_num⟩
  · exact ⟨3, by norm_num⟩
  · exact ⟨2, by norm_num⟩

/-- Every slope contribution is a multiple of ten. -/
theorem pontuacaoDeclinacao_mult10 (s : ℚ) :
    ∃ k : ℤ, pontuacaoDeclinacao s = 10 * (k : ℚ) := by
  rw [pontuacaoDeclinacao]
  split_ifs
  · exact ⟨3, by norm_num⟩
  · exact ⟨2, by norm_num⟩
  · exact ⟨1, by norm_num⟩

/-- The pre-clamp sum of the three contributions lies in `[30, 100]`. -/
theorem somaPontuacao_bounds (c : List ℚ) :
    30 ≤ pontuacaoFaixa (faixa c) + pontuacaoEstabilidade (variancia c) +
        pontuacaoDeclinacao (inclinacao c)
    ∧ pontuacaoFaixa (faixa c) + pontuacaoEstabilidade (variancia c) +
        pontuacaoDeclinacao (inclinacao c) ≤ 100 := by
  obtain ⟨h1, h2⟩ := pontuacaoFaixa_bounds (faixa c)
  obtain ⟨h3, h4⟩ := pontuacaoEstabilidade_bounds (variancia c)
  obtain ⟨h5, h6⟩ := pontuacaoDeclinacao_bounds (inclinacao c)
  constructor <;> linarith

/-- The clamp `min 100 (max 0 _)` never changes the pre-clamp sum. -/
theorem pontuacao_eq_soma (c : List ℚ) :
    pontuacao c = pontuacaoFaixa (faixa c) + pontuacaoEstabilidade (variancia c) +
      pontuacaoDeclinacao (inclinacao c) := by
  obtain ⟨hl, hu⟩ := somaPontuacao_bounds c
  rw [pontuacao, max_eq_right (by linarith), min_eq_right (by linarith)]

/-- C8: each rubric contribution lies in `[10, 40]`, the pre-clamp sum
lies in `[30, 100]` and is a multiple of ten, the final clamp never
changes it, and a returned score of 0 happens exactly on the
insufficient-data path. -/
theorem claim_C8 (c : List ℚ) (_h5 : 5 ≤ c.length) :
    (10 ≤ pontuacaoFaixa (faixa c) ∧ pontuacaoFaixa (faixa c) ≤ 40)
    ∧ (10 ≤ pontuacaoEstabilidade (variancia c) ∧ pontuacaoEstabilidade (variancia c) ≤ 40)
    ∧ (10 ≤ pontuacaoDeclinacao (inclinacao c) ∧ pontuacaoDeclinacao (inclinacao c) ≤ 40)
    ∧ (30 ≤ pontuacaoFaixa (faixa c) + pontuacaoEstabilidade (variancia c) +
          pontuacaoDeclinacao (inclinacao c)
        ∧ pontuacaoFaixa (faixa c) + pontuacaoEstabilidade (variancia c) +
            pontuacaoDeclinacao (inclinacao c) ≤ 100)
    ∧ (∃ k : ℤ, pontuacaoFaixa (faixa c) + pontuacaoEstabilidade (variancia c) +
          pontuacaoDeclinacao (inclinacao c) = 10 * (k : ℚ))
    ∧ pontuacao c = pontuacaoFaixa (faixa c) + pontuacaoEstabilidade (variancia c) +
        pontuacaoDeclinacao (inclinacao c)
    ∧ ∀ (detect : List ℚ → Option ℚ) (samples : List ℚ),
        ((analisarEntonacao detect samples).score = 0 ↔ (contorno detect samples).length < 5) := by
  obtain ⟨h1, h2⟩ := pontuacaoFaixa_bounds (faixa c)
  obtain ⟨h3, h4⟩ := pontuacaoEstabilidade_bounds (variancia c)
  obtain ⟨ha, hb⟩ := pontuacaoDeclinacao_bounds (inclinacao c)
  obtain ⟨k1, hk1⟩ := pontuacaoFaixa_mult10 (faixa c)
  obtain ⟨k2, hk2⟩ := pontuacaoEstabilidade_mult10 (variancia c)
  obtain ⟨k3, hk3⟩ := pontuacaoDeclinacao_mult10 (inclinacao c)
  refine ⟨⟨h1, h2⟩, ⟨h3, by linarith⟩, ⟨ha, by linarith⟩, somaPontuacao_bounds c,
    ⟨k1 + k2 + k3, by push_cast; linarith⟩, pontuacao_eq_soma c, fun detect samples => ?_⟩
  by_cases hlen : (contorno detect samples).length < 5
  · simp only [analisarEntonacao]
    rw [if_pos hlen]
    simp [hlen]
  · simp only [analisarEntonacao]
    rw [if_neg hlen]
    have h30 : 30 ≤ pontuacao (contorno detect samples) := by
      rw [pontuacao_eq_soma]
      exact (somaPontuacao_bounds _).1
    refine ⟨fun h0 => ?_, fun hc => absurd hc hlen⟩
    have habs : (30 : ℚ) ≤ 0 := by
      rw [← h0]
      exact h30
    norm_num at habs

/-- Witness for C8 at a concrete five-point contour. -/
theorem claim_C8_witness :
    5 ≤ ([100, 105, 110, 108, 102] : List ℚ).length
    ∧ pontuacao [100, 105, 110, 108, 102] =
        pontuacaoFaixa (faixa [100, 105, 110, 108, 102]) +
          pontuacaoEstabilidade (variancia [100, 105, 110, 108, 102]) +
          pontuacaoDeclinacao (inclinacao [100, 105, 110, 108, 102]) := by
  refine ⟨by simp, ?_⟩
  exact (claim_C8 [100, 105, 110, 108, 102] (by simp)).2.2.2.2.2.1

/-! Claim C5 (corrected) and claim C9. -/

/-- Monotonicity bridge for strict lower bounds on the standard
deviation: for a nonnegative threshold `t`, `t < √v ↔ t² < v`. -/
theorem lt_sqrt_threshold_iff (v t : ℚ) (ht : 0 ≤ t) :
    (t : ℝ) < Real.sqrt (v : ℝ) ↔ t ^ 2 < v := by
  rw [Real.lt_sqrt (by exact_mod_cast ht)]
  exact_mod_cast Iff.rfl

/-- Monotonicity bridge for upper bounds on the standard deviation:
for a positive threshold `t`, `√v ≤ t ↔ v ≤ t²`. -/
theorem sqrt_le_threshold_iff (v t : ℚ) (ht : 0 < t) :
    Real.sqrt (v : ℝ) ≤ (t : ℝ) ↔ v ≤ t ^ 2 := by
  rw [← not_lt, lt_sqrt_threshold_iff v t (le_of_lt ht), not_lt]

/-- Whatever buckets fire, the assembled-and-trimmed feedback is never
the empty string. -/
theorem feedback_nonempty (r v s : ℚ) :
    aparar (comentarioFaixa r ++ comentarioEstabilidade v ++ comentarioDeclinacao s) ≠ "" := by
  rw [comentarioFaixa, comentarioEstabilidade, comentarioDeclinacao]
  split_ifs <;> decide

/-- C5 (amended): on the success path the feedback is the
concatenation of one range sentence, one stability sentence and one
declination sentence, trimmed of surrounding whitespace; the
declination sentence is selected by the slope boundaries `-0.1` and
`+0.1` (rising above `0.1`, falling below `-0.1`, neutral in between) —
only the falling boundary `-0.1` is shared with the slope score rubric,
whose upper breakpoint is `0.05`. -/
theorem claim_C5 (detect : List ℚ → Option ℚ) (samples : List ℚ)
    (h5 : 5 ≤ (contorno detect samples).length) :
    ∃ s1 s2 s3 : String,
      (analisarEntonacao detect samples).feedback = aparar (s1 ++ s2 ++ s3)
      ∧ (faixa (contorno detect samples) < 20 →
          s1 = "Sua entonação está muito reta (monótona). Tente variar mais a altura da voz. ")
      ∧ (20 ≤ faixa (contorno detect samples) → faixa (contorno detect samples) < 60 →
          s1 = "Boa variação de entonação. ")
      ∧ (60 ≤ faixa (contorno detect samples) → s1 = "✨ Ótima variação tonal! ")
      ∧ (40 < Real.sqrt (variancia (contorno detect samples)) →
          s2 = "Sua voz está tremida ou instável. ")
      ∧ (Real.sqrt (variancia (contorno detect samples)) < 10 →
          s2 = "Voz robótica demais. Tente ser mais expressivo. ")
      ∧ (10 ≤ Real.sqrt (variancia (contorno detect samples)) →
          Real.sqrt (variancia (contorno detect samples)) ≤ 40 →
          s2 = "Ótima estabilidade na voz. ")
      ∧ (1 / 10 < inclinacao (contorno detect samples) →
          s3 = "Você terminou a frase subindo (soa como pergunta). ")
      ∧ (inclinacao (contorno detect samples) < -(1 / 10) →
          s3 = "Você terminou a frase caindo (natural para afirmações).")
      ∧ (-(1 / 10) ≤ inclinacao (contorno detect samples) →
          inclinacao (contorno detect samples) ≤ 1 / 10 → s3 = "Finalização neutra.") := by
  have hne : ¬(contorno detect samples).length < 5 := not_lt.2 h5
  refine ⟨comentarioFaixa (faixa (contorno detect samples)),
    comentarioEstabilidade (variancia (contorno detect samples)),
    comentarioDeclinacao (inclinacao (contorno detect samples)), ?_,
    fun h1 => ?_, fun h1 h2 => ?_, fun h1 => ?_,
    fun h1 => ?_, fun h1 => ?_, fun h1 h2 => ?_,
    fun h1 => ?_, fun h1 => ?_, fun h1 h2 => ?_⟩
  · simp only [analisarEntonacao]
    rw [if_neg hne]
  · rw [comentarioFaixa, if_pos h1]
  · rw [comentarioFaixa, if_neg (not_lt.2 h1), if_pos h2]
  · rw [comentarioFaixa, if_neg (not_lt.2 (by linarith)), if_neg (not_lt.2 h1)]
  · have hv : (1600 : ℚ) < variancia (contorno detect samples) := by
      have hq := (lt_sqrt_threshold_iff (variancia (contorno detect samples)) 40
        (by norm_num)).1 (by exact_mod_cast h1)
      norm_num at hq
      exact hq
    rw [comentarioEstabilidade, if_pos hv]
  · have hv : variancia (contorno detect samples) < 100 := by
      have hq := (sqrt_lt_threshold_iff (variancia (contorno detect samples)) 10
        (by norm_num)).1 (by exact_mod_cast h1)
      norm_num at hq
      exact hq
    rw [comentarioEstabilidade, if_neg (not_lt.2 (by linarith)), if_pos hv]
  · have hv1 : (100 : ℚ) ≤ variancia (contorno detect samples) := by
      have hq := (le_sqrt_threshold_iff (variancia (contorno detect samples)) 10
        (by norm_num)).1 (by exact_mod_cast h1)
      norm_num at hq
      exact hq
    have hv2 : variancia (contorno detect samples) ≤ 1600 := by
      have hq := (sqrt_le_threshold_iff (variancia (contorno detect samples)) 40
        (by norm_num)).1 (by exact_mod_cast h2)
      norm_num at hq
      exact hq
    rw [comentarioEstabilidade, if_neg (not_lt.2 hv2), if_neg (not_lt.2 hv1)]
  · rw [comentarioDeclinacao, if_pos h1]
  · rw [comentarioDeclinacao, if_neg (not_lt.2 (by linarith)), if_pos h1]
  · rw [comentarioDeclinacao, if_neg (not_lt.2 h2), if_neg (not_lt.2 h1)]

/-- C5 counterexample: the slopes `0.07` and `0.5` both lie in the
score rubric's top bucket (`slope ≥ 0.05`), yet they receive different
declination sentences — the sentence is chosen at the boundary `0.1`,
not at the score rubric's `0.05`. -/
theorem claim_C5_counterexample :
    (1 / 20 : ℚ) ≤ 7 / 100 ∧ (1 / 20 : ℚ) ≤ 1 / 2
    ∧ comentarioDeclinacao (7 / 100) = "Finalização neutra."
    ∧ comentarioDeclinacao (1 / 2) = "Você terminou a frase subindo (soa como pergunta). "
    ∧ comentarioDeclinacao (7 / 100) ≠ comentarioDeclinacao (1 / 2) := by
  have h1 : comentarioDeclinacao (7 / 100) = "Finalização neutra." := by
    rw [comentarioDeclinacao, if_neg (by norm_num), if_neg (by norm_num)]
  have h2 : comentarioDeclinacao (1 / 2) =
      "Você terminou a frase subindo (soa como pergunta). " := by
    rw [comentarioDeclinacao, if_pos (by norm_num)]
  refine ⟨by norm_num, by norm_num, h1, h2, ?_⟩
  rw [h1, h2]
  decide

/-- Witness for C5 at the concrete test input. -/
theorem claim_C5_witness :
    5 ≤ (contorno detectorTeste amostrasTeste).length
    ∧ ∃ s1 s2 s3 : String,
        (analisarEntonacao detectorTeste amostrasTeste).feedback = aparar (s1 ++ s2 ++ s3) := by
  have h5 : 5 ≤ (contorno detectorTeste amostrasTeste).length := by
    rw [contorno_amostrasTeste]
    simp
  refine ⟨h5, ?_⟩
  obtain ⟨s1, s2, s3, hfb, -⟩ := claim_C5 detectorTeste amostrasTeste h5
  exact ⟨s1, s2, s3, hfb⟩

/-- C9: on the success path all five numeric fields are present —
range, sd, slope, pitchCount and meanPitch — with `pitchCount` the
length of the combined contour (at least five, duplicates from the two
phases included), and the feedback string is non-empty. -/
theorem claim_C9 (detect : List ℚ → Option ℚ) (samples : List ℚ)
    (h5 : 5 ≤ (contorno detect samples).length) :
    (analisarEntonacao detect samples).range =
        some (roundFixed 2 (faixa (contorno detect samples)))
    ∧ (analisarEntonacao detect samples).sd =
        some (sdArredondado (variancia (contorno detect samples)))
    ∧ (analisarEntonacao detect samples).slope =
        some (roundFixed 4 (inclinacao (contorno detect samples)))
    ∧ (analisarEntonacao detect samples).pitchCount = some (contorno detect samples).length
    ∧ (analisarEntonacao detect samples).meanPitch =
        some (roundFixed 2 (media (contorno detect samples)))
    ∧ 5 ≤ (contorno detect samples).length
    ∧ (analisarEntonacao detect samples).feedback ≠ "" := by
  have hne : ¬(contorno detect samples).length < 5 := not_lt.2 h5
  simp only [analisarEntonacao]
  rw [if_neg hne]
  exact ⟨rfl, rfl, rfl, rfl, rfl, h5, feedback_nonempty _ _ _⟩

/-- Witness for C9 at the concrete test input. -/
theorem claim_C9_witness :
    5 ≤ (contorno detectorTeste amostrasTeste).length
    ∧ (analisarEntonacao detectorTeste amostrasTeste).pitchCount =
        some (contorno detectorTeste amostrasTeste).length := by
  have h5 : 5 ≤ (contorno detectorTeste amostrasTeste).length := by
    rw [contorno_amostrasTeste]
    simp
  exact ⟨h5, (claim_C9 detectorTeste amostrasTeste h5).2.2.2.1⟩

/-! Claim C4 (corrected). -/

/-- Mean of the example contour. -/
theorem media_exemplo : media [100, 105, 110, 108, 102] = 105 := by
  rw [media]
  simp only [List.sum_cons, List.sum_nil, List.length_cons, List.length_nil]
  push_cast
  norm_num

/-- Variance of the example contour: `68/5 = 13.6`, not the `10.8`
claimed by the specification. -/
theorem variancia_exemplo : variancia [100, 105, 110, 108, 102] = 68 / 5 := by
  rw [variancia]
  simp only [media_exemplo, List.map_cons, List.map_nil, List.sum_cons, List.sum_nil,
    List.length_cons, List.length_nil]
  push_cast
  norm_num

/-- Range of the example contour. -/
theorem faixa_exemplo : faixa [100, 105, 110, 108, 102] = 10 := by
  norm_num [faixa, maximo, minimo, List.foldr_cons, List.foldr_nil, max_def, min_def]

/-- Slope of the example contour. -/
theorem inclinacao_exemplo : inclinacao [100, 105, 110, 108, 102] = 2 / 5 := by
  rw [inclinacao]
  simp only [List.getLastD, List.headI, List.length_cons, List.length_nil]
  push_cast
  norm_num

/-- C4 (amended): for the contour `[100, 105, 110, 108, 102]` the code
computes range 10, mean 105, variance `68/5 = 13.6` (not 10.8),
standard deviation strictly between 3.68 and 3.69 (not ≈3.29), slope
`(102 - 100)/5 = 0.4`, and score 30 (10 points from each bucket). -/
theorem claim_C4 :
    faixa [100, 105, 110, 108, 102] = 10
    ∧ media [100, 105, 110, 108, 102] = 105
    ∧ variancia [100, 105, 110, 108, 102] = 68 / 5
    ∧ inclinacao [100, 105, 110, 108, 102] = (102 - 100) / 5
    ∧ (368 / 100 : ℝ) < Real.sqrt ((variancia [100, 105, 110, 108, 102] : ℚ) : ℝ)
    ∧ Real.sqrt ((variancia [100, 105, 110, 108, 102] : ℚ) : ℝ) < 369 / 100
    ∧ pontuacao [100, 105, 110, 108, 102] = 30 := by
  have hlo : (368 / 100 : ℝ) < Real.sqrt ((variancia [100, 105, 110, 108, 102] : ℚ) : ℝ) := by
    have hq := (lt_sqrt_threshold_iff (variancia [100, 105, 110, 108, 102]) (368 / 100)
      (by norm_num)).2 (by rw [variancia_exemplo]; norm_num)
    push_cast at hq
    exact hq
  have hhi : Real.sqrt ((variancia [100, 105, 110, 108, 102] : ℚ) : ℝ) < 369 / 100 := by
    have hq := (sqrt_lt_threshold_iff (variancia [100, 105, 110, 108, 102]) (369 / 100)
      (by norm_num)).2 (by rw [variancia_exemplo]; norm_num)
    push_cast at hq
    exact hq
  have hscore : pontuacao [100, 105, 110, 108, 102] = 30 := by
    rw [pontuacao_eq_soma, faixa_exemplo, variancia_exemplo, inclinacao_exemplo]
    rw [pontuacaoFaixa, if_pos (by norm_num)]
    rw [pontuacaoEstabilidade, if_pos (by norm_num)]
    rw [pontuacaoDeclinacao, if_neg (by norm_num), if_neg (by norm_num)]
    norm_num
  exact ⟨faixa_exemplo, media_exemplo, variancia_exemplo,
    by rw [inclinacao_exemplo]; norm_num, hlo, hhi, hscore⟩

/-- C4 counterexample: the variance of the example contour differs from
the claimed `10.8`, and its standard deviation exceeds `3.3`, so it is
not approximately `3.29`. -/
theorem claim_C4_counterexample :
    variancia [100, 105, 110, 108, 102] ≠ 108 / 10
    ∧ (33 / 10 : ℝ) < Real.sqrt ((variancia [100, 105, 110, 108, 102] : ℚ) : ℝ) := by
  constructor
  · rw [variancia_exemplo]
    norm_num
  · have hq := (lt_sqrt_threshold_iff (variancia [100, 105, 110, 108, 102]) (33 / 10)
      (by norm_num)).2 (by rw [variancia_exemplo]; norm_num)
    push_cast at hq
    exact hq

/-! Claim C10. -/

/-- Byte-range bounds for the signed 16-bit read. -/
theorem int16_bounds (lo hi : ℕ) (hlo : lo < 256) (hhi : hi < 256) :
    -32768 ≤ int16OfBytes lo hi ∧ int16OfBytes lo hi ≤ 32767 := by
  rw [int16OfBytes]
  split_ifs with h <;> constructor <;> omega

/-- Every decoded sample lies in `[-1, 1]`. -/
theorem sample_bounds (lo hi : ℕ) (hlo : lo < 256) (hhi : hi < 256) :
    -1 ≤ ((int16OfBytes lo hi : ℚ) / 32768) ∧ ((int16OfBytes lo hi : ℚ) / 32768) ≤ 1 := by
  obtain ⟨h1, h2⟩ := int16_bounds lo hi hlo hhi
  constructor
  · rw [le_div_iff₀ (by norm_num : (0 : ℚ) < 32768)]
    have hc : (-32768 : ℚ) ≤ (int16OfBytes lo hi : ℚ) := by exact_mod_cast h1
    linarith
  · rw [div_le_one (by norm_num : (0 : ℚ) < 32768)]
    have hc : ((int16OfBytes lo hi : ℚ)) ≤ 32767 := by exact_mod_cast h2
    linarith

/-- C10: for a byte buffer of even length the PCM adapter succeeds with
exactly `length / 2` samples, the `j`-th sample decoding the two bytes
at positions `2j` and `2j + 1` as a little-endian signed 16-bit value
divided by 32768, always in `[-1, 1]`; an odd-length buffer makes the
final read run past the end, modelled as `none`. -/
theorem claim_C10 (b : List ℕ) (hb : ∀ x ∈ b, x < 256) :
    (b.length % 2 = 0 →
      ∃ out, bufferToFloat32 b = some out
        ∧ out.length = b.length / 2
        ∧ ∀ j : ℕ, 2 * j < b.length →
            ∃ lo hi : ℕ, b.get? (2 * j) = some lo ∧ b.get? (2 * j + 1) = some hi
              ∧ out.get? j = some ((int16OfBytes lo hi : ℚ) / 32768)
              ∧ -1 ≤ ((int16OfBytes lo hi : ℚ) / 32768)
              ∧ ((int16OfBytes lo hi : ℚ) / 32768) ≤ 1)
    ∧ (b.length % 2 = 1 → bufferToFloat32 b = none) := by
  induction b using bufferToFloat32.induct with
  | case1 =>
    refine ⟨fun _ => ⟨[], rfl, rfl, fun j hj => absurd hj (by simp)⟩, fun hodd => ?_⟩
    simp at hodd
  | case2 x =>
    refine ⟨fun heven => absurd heven (by simp), fun _ => rfl⟩
  | case3 lo hi rest hrec ih =>
    have hbr : ∀ x ∈ rest, x < 256 := fun x hx => hb x (by simp [hx])
    obtain ⟨iheven, ihodd⟩ := ih hbr
    refine ⟨fun heven => ?_, fun hodd => ?_⟩
    · have hre : rest.length % 2 = 0 := by
        simp only [List.length_cons] at heven
        omega
      exact absurd (iheven hre) (by rw [hrec]; simp)
    · rw [bufferToFloat32, hrec]
  | case4 lo hi rest out hrec ih =>
    have hbr : ∀ x ∈ rest, x < 256 := fun x hx => hb x (by simp [hx])
    obtain ⟨iheven, ihodd⟩ := ih hbr
    refine ⟨fun heven => ?_, fun hodd => ?_⟩
    · have hre : rest.length % 2 = 0 := by
        simp only [List.length_cons] at heven
        omega
      obtain ⟨out0, hout0, hlen0, hidx0⟩ := iheven hre
      have hout : out0 = out := by
        rw [hrec] at hout0
        exact (Option.some.inj hout0).symm
      subst hout
      refine ⟨((int16OfBytes lo hi : ℚ) / 32768) :: out0, ?_, ?_, ?_⟩
      · rw [bufferToFloat32, hrec]
      · simp only [List.length_cons, hlen0]
        omega
      · intro j hj
        cases j with
        | zero =>
          obtain ⟨hb1, hb2⟩ := sample_bounds lo hi
            (hb lo (by simp)) (hb hi (by simp))
          exact ⟨lo, hi, rfl, rfl, rfl, hb1, hb2⟩
        | succ j =>
          have hj2 : 2 * j < rest.length := by
            simp only [List.length_cons] at hj
            omega
          obtain ⟨lo2, hi2, hg1, hg2, hg3, hb1, hb2⟩ := hidx0 j hj2
          refine ⟨lo2, hi2, ?_, ?_, ?_, hb1, hb2⟩
          · rw [show 2 * (j + 1) = 2 * j + 1 + 1 by ring]
            simpa using hg1
          · rw [show 2 * (j + 1) + 1 = (2 * j + 1) + 1 + 1 by ring]
            simpa using hg2
          · simpa using hg3
    · have hro : rest.length % 2 = 1 := by
        simp only [List.length_cons] at hodd
        omega
      exact absurd (ihodd hro) (by rw [hrec]; simp)

/-- Witness for C10 at the two-byte buffer `[0, 128]` (the sample
`-32768/32768 = -1`). -/
theorem claim_C10_witness :
    (∀ x ∈ ([0, 128] : List ℕ), x < 256)
    ∧ ([0, 128] : List ℕ).length % 2 = 0
    ∧ ∃ out, bufferToFloat32 [0, 128] = some out ∧ out.length = 1 := by
  have hb : ∀ x ∈ ([0, 128] : List ℕ), x < 256 := by decide
  have heven : ([0, 128] : List ℕ).length % 2 = 0 := by decide
  obtain ⟨out, h1, h2, -⟩ := (claim_C10 [0, 128] hb).1 heven
  exact ⟨hb, heven, out, h1, by rw [h2]; rfl⟩

end Entonacao
